import Mathlib

/-!
Verification of bocadillo's error-to-response translation layer
(src/bocadillo/error_handlers.py): the three built-in formatters
(error_to_html, error_to_media, error_to_text), the recursive
exception-to-response converter _to_res, and the dispatcher wrapper
convert_exception_to_response.

Machine integers in the source are plain Python ints (status codes),
modelled as Nat. Exceptions are modelled explicitly: an exception value
is either an HTTPError (the structured kind) or an opaque ordinary
exception; fallible code returns Except. Response mutation is modelled
by explicit state passing. Side effects that the claims observe
(traceback.print_exc calls, error-handler invocations) are counted in
the result record.
-/

namespace Bocadillo

/-- Modelled from the spec: the StructuredError value type (spec section 3).
The class HTTPError lives in bocadillo/exceptions.py, which is not part of
the provided sources; the spec records its attributes as status_code
(integer), title (string) and detail (optional string). -/
structure HTTPError where
  status_code : Nat
  title : String
  detail : Option String
  deriving DecidableEq, Repr

/-- Modelled from the spec: HTTPError(500), the synthetic structured error
the fallback path builds for an unknown exception kind — status 500 with a
generic title and no detail disclosed (spec sections 4.3 and 7). -/
def HTTPError.internal500 : HTTPError :=
  { status_code := 500, title := "Internal Server Error", detail := Option.none }

/-- Modelled from the spec: the request value (spec section 6). None of the
formatters read request fields, so it carries no data. -/
structure Request where
  deriving DecidableEq, Repr

/-- A value stored under a key of the structured-data (media) mapping. -/
inductive MediaVal where
  | str (s : String)
  | num (n : Nat)
  deriving DecidableEq, Repr

/-- The response body in one of the three encodings, or empty. A Python
dict preserves insertion order, so the media mapping is a key-value list. -/
inductive Body where
  | empty
  | html (s : String)
  | media (m : List (String × MediaVal))
  | text (s : String)
  deriving DecidableEq, Repr

/-- Modelled from the spec: the mutable response object (spec sections 3
and 6) — a status code plus a body settable through one of the three
encodings. bocadillo/response.py is not part of the provided sources. -/
structure Response where
  status_code : Nat
  body : Body
  deriving DecidableEq, Repr

/-- Modelled from the spec: Response(req, **kwargs), a fresh response
constructed per error (spec section 4.3 step 5). -/
def Response.fresh (_req : Request) : Response :=
  { status_code := 200, body := Body.empty }

/-- Python truthiness of an optional string: None and the empty string are
falsy, every other string is truthy. This is the test the source performs
with `if exc.detail:`. -/
def truthy : Option String → Bool
  | Option.none => false
  | Option.some s => !(s == "")

/-- error_to_html from src/bocadillo/error_handlers.py. -/
def error_to_html (_req : Request) (res : Response) (exc : HTTPError) : Response :=
  let res := { res with status_code := exc.status_code }
  let html := "<h1>" ++ exc.title ++ "</h1>"
  let html := if truthy exc.detail
    then html ++ "\n<p>" ++ exc.detail.getD "" ++ "</p>"
    else html
  { res with body := Body.html html }

/-- error_to_media from src/bocadillo/error_handlers.py. -/
def error_to_media (_req : Request) (res : Response) (exc : HTTPError) : Response :=
  let res := { res with status_code := exc.status_code }
  let media := [("error", MediaVal.str exc.title), ("status", MediaVal.num exc.status_code)]
  let media := if truthy exc.detail
    then media ++ [("detail", MediaVal.str (exc.detail.getD ""))]
    else media
  { res with body := Body.media media }

/-- error_to_text from src/bocadillo/error_handlers.py. -/
def error_to_text (_req : Request) (res : Response) (exc : HTTPError) : Response :=
  let res := { res with status_code := exc.status_code }
  let text := exc.title
  let text := if truthy exc.detail
    then text ++ "\n" ++ exc.detail.getD ""
    else text
  { res with body := Body.text text }

/-- An exception value as the catch site sees it: either an HTTPError
(isinstance(exc, HTTPError) succeeds) or any other ordinary exception,
opaque except for a name. -/
inductive Exc where
  | httpError (e : HTTPError)
  | other (name : String)
  deriving DecidableEq, Repr

/-- Termination measure for the recursive fallback of to_res: the
non-HTTPError branch recurses once with an HTTPError argument. -/
def Exc.rank : Exc → Nat
  | Exc.httpError _ => 0
  | Exc.other _ => 1

/-- ErrorHandler = Callable[[Request, Response, Exception], None]; the
handler mutates the response, modelled as returning the updated one. -/
abbrev ErrorHandler := Request → Response → HTTPError → Response

/-- Result of to_res: the response, plus counts of the observable side
effects — traceback.print_exc emissions and error-handler invocations. -/
structure ToResResult where
  res : Response
  traces : Nat
  handlerCalls : Nat
  deriving DecidableEq, Repr

/-- _to_res from src/bocadillo/error_handlers.py: an HTTPError gets a fresh
response populated by the handler, with a diagnostic trace when its status
code is 500; any other exception is wrapped as HTTPError(500) and
reprocessed recursively. -/
def to_res (req : Request) (exc : Exc) (error_handler : ErrorHandler) : ToResResult :=
  match exc with
  | Exc.httpError e =>
      let res := Response.fresh req
      let res := error_handler req res e
      { res := res,
        traces := if e.status_code == 500 then 1 else 0,
        handlerCalls := 1 }
  | Exc.other _ => to_res req (Exc.httpError HTTPError.internal500) error_handler
termination_by exc.rank
decreasing_by simp [Exc.rank]

/-- convert_exception_to_response from src/bocadillo/error_handlers.py:
wraps dispatch so the produced handler always returns a response. The
dispatch argument models `await dispatch(req)`, which either returns a
response or raises an exception; the produced handler's Except result
models whether it itself raises. -/
def convert_exception_to_response (dispatch : Request → Except Exc Response)
    (error_handler : Option ErrorHandler) : Request → Except Exc ToResResult :=
  let error_handler := error_handler.getD error_to_text
  fun req =>
    match dispatch req with
    | Except.ok res => Except.ok { res := res, traces := 0, handlerCalls := 0 }
    | Except.error exc => Except.ok (to_res req exc error_handler)

/-- The structured error effectively handed to the formatter: the raised
HTTPError itself, or the synthetic HTTPError(500) for any other kind. -/
def effectiveError : Exc → HTTPError
  | Exc.httpError e => e
  | Exc.other _ => HTTPError.internal500

/-- Unfolding lemma for the HTTPError branch of to_res. -/
theorem to_res_httpError (req : Request) (e : HTTPError) (h : ErrorHandler) :
    to_res req (Exc.httpError e) h =
      { res := h req (Response.fresh req) e,
        traces := if e.status_code == 500 then 1 else 0,
        handlerCalls := 1 } := by
  simp [to_res]

/-- Unfolding lemma for the fallback branch of to_res: a non-HTTPError
exception is reprocessed as the synthetic HTTPError(500). -/
theorem to_res_other (req : Request) (s : String) (h : ErrorHandler) :
    to_res req (Exc.other s) h = to_res req (Exc.httpError HTTPError.internal500) h := by
  simp [to_res]

/-- Each of the three built-in formatters copies the structured error's
status code onto the response. -/
theorem builtin_sets_status (req : Request) (res : Response) (e : HTTPError) :
    (error_to_html req res e).status_code = e.status_code ∧
    (error_to_media req res e).status_code = e.status_code ∧
    (error_to_text req res e).status_code = e.status_code :=
  ⟨rfl, rfl, rfl⟩

/-- C1: for every inner handler and every ordinary exception raised while
it runs, the handler produced by convert_exception_to_response returns a
response instead of propagating the exception — the wrapped handler never
raises. -/
theorem wrapped_handler_never_raises (dispatch : Request → Except Exc Response)
    (error_handler : Option ErrorHandler) (req : Request) :
    ∃ r, convert_exception_to_response dispatch error_handler req = Except.ok r := by
  unfold convert_exception_to_response
  cases dispatch req <;> exact ⟨_, rfl⟩

/-- C2: for every non-HTTPError exception raised by the inner handler, and
every error handler that copies the error's status code onto the response
(as all built-in formatters do), the wrapped handler returns a response
with status code 500 and the diagnostic trace is emitted exactly once,
despite the recursive re-processing. -/
theorem other_exception_gives_500_one_trace
    (h : ErrorHandler)
    (hstat : ∀ req res e, (h req res e).status_code = e.status_code)
    (dispatch : Request → Except Exc Response) (req : Request) (name : String)
    (hd : dispatch req = Except.error (Exc.other name)) :
    ∃ r, convert_exception_to_response dispatch (Option.some h) req = Except.ok r ∧
      r.res.status_code = 500 ∧ r.traces = 1 := by
  refine ⟨to_res req (Exc.other name) h, ?_, ?_, ?_⟩
  · unfold convert_exception_to_response
    rw [hd]
    rfl
  · rw [to_res_other, to_res_httpError]
    exact hstat req (Response.fresh req) HTTPError.internal500
  · rw [to_res_other, to_res_httpError]
    rfl

/-- C2 witness: a dispatcher that raises an opaque exception, wrapped with
the text formatter, yields a 500 response with exactly one trace. -/
theorem other_exception_gives_500_one_trace_instance :
    ∃ r, convert_exception_to_response (fun _ => Except.error (Exc.other "boom"))
        (Option.some error_to_text) Request.mk = Except.ok r ∧
      r.res.status_code = 500 ∧ r.traces = 1 :=
  other_exception_gives_500_one_trace error_to_text (fun _ _ _ => rfl)
    (fun _ => Except.error (Exc.other "boom")) Request.mk "boom" rfl

/-- C3: for every HTTPError E with status code other than 500 raised by the
inner handler, and every error handler that copies the error's status code
onto the response (as all built-in formatters do), the wrapped handler
returns a response whose status code equals the status code of E and no
diagnostic trace is emitted. -/
theorem http_error_preserves_status_no_trace
    (h : ErrorHandler)
    (hstat : ∀ req res e, (h req res e).status_code = e.status_code)
    (dispatch : Request → Except Exc Response) (req : Request) (e : HTTPError)
    (hd : dispatch req = Except.error (Exc.httpError e))
    (hne : e.status_code ≠ 500) :
    ∃ r, convert_exception_to_response dispatch (Option.some h) req = Except.ok r ∧
      r.res.status_code = e.status_code ∧ r.traces = 0 := by
  refine ⟨to_res req (Exc.httpError e) h, ?_, ?_, ?_⟩
  · unfold convert_exception_to_response
    rw [hd]
    rfl
  · rw [to_res_httpError]
    exact hstat req (Response.fresh req) e
  · rw [to_res_httpError]
    simp [hne]

/-- C3 witness: an explicit 404 HTTPError keeps status 404 and emits no
trace under the text formatter. -/
theorem http_error_preserves_status_no_trace_instance :
    ∃ r, convert_exception_to_response
        (fun _ => Except.error (Exc.httpError ⟨404, "Not Found", Option.none⟩))
        (Option.some error_to_text) Request.mk = Except.ok r ∧
      r.res.status_code = 404 ∧ r.traces = 0 :=
  http_error_preserves_status_no_trace error_to_text (fun _ _ _ => rfl)
    (fun _ => Except.error (Exc.httpError ⟨404, "Not Found", Option.none⟩)) Request.mk
    ⟨404, "Not Found", Option.none⟩ rfl (by decide)

/-- C4: for every errored request, exactly one formatter invocation runs,
and with any of the three built-in formatters the response's status code
equals the effective structured error's status code. -/
theorem one_formatter_status_reflects
    (dispatch : Request → Except Exc Response) (req : Request) (exc : Exc)
    (hd : dispatch req = Except.error exc)
    (f : ErrorHandler)
    (hf : f = error_to_html ∨ f = error_to_media ∨ f = error_to_text) :
    ∃ r, convert_exception_to_response dispatch (Option.some f) req = Except.ok r ∧
      r.handlerCalls = 1 ∧ r.res.status_code = (effectiveError exc).status_code := by
  have hstat : ∀ req res e, (f req res e).status_code = e.status_code := by
    rcases hf with hf | hf | hf <;> subst hf <;> exact fun _ _ _ => rfl
  refine ⟨to_res req exc f, ?_, ?_, ?_⟩
  · unfold convert_exception_to_response
    rw [hd]
    rfl
  · cases exc with
    | httpError e => rw [to_res_httpError]
    | other s => rw [to_res_other, to_res_httpError]
  · cases exc with
    | httpError e =>
        rw [to_res_httpError]
        exact hstat req (Response.fresh req) e
    | other s =>
        rw [to_res_other, to_res_httpError]
        exact hstat req (Response.fresh req) HTTPError.internal500

/-- C4 witness: an errored request carrying a 404 HTTPError, formatted with
the HTML formatter, runs the formatter exactly once and reflects 404. -/
theorem one_formatter_status_reflects_instance :
    ∃ r, convert_exception_to_response
        (fun _ => Except.error (Exc.httpError ⟨404, "Not Found", Option.none⟩))
        (Option.some error_to_html) Request.mk = Except.ok r ∧
      r.handlerCalls = 1 ∧
      r.res.status_code =
        (effectiveError (Exc.httpError ⟨404, "Not Found", Option.none⟩)).status_code :=
  one_formatter_status_reflects
    (fun _ => Except.error (Exc.httpError ⟨404, "Not Found", Option.none⟩)) Request.mk
    (Exc.httpError ⟨404, "Not Found", Option.none⟩) rfl error_to_html (Or.inl rfl)

/-- Modelled from the spec: the flattened, non-recursive variant of _to_res
the design notes describe — a single branch that selects the effective
structured error, builds the response, applies the formatter, and logs
when the status is 500 (spec section 9, open question). -/
def to_res_flat (req : Request) (exc : Exc) (error_handler : ErrorHandler) : ToResResult :=
  let e := effectiveError exc
  let res := error_handler req (Response.fresh req) e
  { res := res,
    traces := if e.status_code == 500 then 1 else 0,
    handlerCalls := 1 }

/-- C5: replacing the recursive fallback of _to_res with the single
non-recursive branch yields observably identical behavior — the same
response (status and body), the same trace emissions, and the same number
of formatter invocations, for every input exception. -/
theorem flat_refines_recursive (req : Request) (exc : Exc) (error_handler : ErrorHandler) :
    to_res req exc error_handler = to_res_flat req exc error_handler := by
  cases exc with
  | httpError e => rw [to_res_httpError]; rfl
  | other s => rw [to_res_other, to_res_httpError]; rfl

/-- C6: with no error handler supplied, the wrapped handler formats every
caught exception with the text formatter's encoding rules — the body is
the effective error's title, plus a newline and the detail when the detail
is present (truthy). -/
theorem default_formatter_is_text
    (dispatch : Request → Except Exc Response) (req : Request) (exc : Exc)
    (hd : dispatch req = Except.error exc) :
    ∃ r, convert_exception_to_response dispatch Option.none req = Except.ok r ∧
      r.res.body = Body.text
        (if truthy (effectiveError exc).detail
         then (effectiveError exc).title ++ "\n" ++ (effectiveError exc).detail.getD ""
         else (effectiveError exc).title) := by
  refine ⟨to_res req exc error_to_text, ?_, ?_⟩
  · unfold convert_exception_to_response
    rw [hd]
    rfl
  · cases exc with
    | httpError e => rw [to_res_httpError]; rfl
    | other s => rw [to_res_other, to_res_httpError]; rfl

/-- C6 witness: with no handler supplied, a caught 403 HTTPError without
detail yields the plain-text body of its title. -/
theorem default_formatter_is_text_instance :
    ∃ r, convert_exception_to_response
        (fun _ => Except.error (Exc.httpError ⟨403, "Forbidden", Option.none⟩))
        Option.none Request.mk = Except.ok r ∧
      r.res.body = Body.text
        (if truthy (effectiveError (Exc.httpError ⟨403, "Forbidden", Option.none⟩)).detail
         then (effectiveError (Exc.httpError ⟨403, "Forbidden", Option.none⟩)).title ++ "\n" ++
           (effectiveError (Exc.httpError ⟨403, "Forbidden", Option.none⟩)).detail.getD ""
         else (effectiveError (Exc.httpError ⟨403, "Forbidden", Option.none⟩)).title) :=
  default_formatter_is_text
    (fun _ => Except.error (Exc.httpError ⟨403, "Forbidden", Option.none⟩)) Request.mk
    (Exc.httpError ⟨403, "Forbidden", Option.none⟩) rfl

/-- C7: the HTML formatter applied to title "Not Found", no detail, status
404 sets the body to exactly <h1>Not Found</h1> and the status to 404; in
general it emits <h1>{title}</h1> followed by <p>{detail}</p> on its own
line only when the detail is present (truthy). -/
theorem html_formatter_encoding (req : Request) (res : Response) (exc : HTTPError) :
    (error_to_html req res ⟨404, "Not Found", Option.none⟩).status_code = 404 ∧
    (error_to_html req res ⟨404, "Not Found", Option.none⟩).body =
      Body.html "<h1>Not Found</h1>" ∧
    (error_to_html req res exc).body =
      Body.html
        (if truthy exc.detail
         then "<h1>" ++ exc.title ++ "</h1>" ++ "\n<p>" ++ exc.detail.getD "" ++ "</p>"
         else "<h1>" ++ exc.title ++ "</h1>") := by
  refine ⟨rfl, rfl, ?_⟩
  unfold error_to_html
  cases hb : truthy exc.detail <;> simp [hb]

/-- C8: the structured-data formatter applied to title "Bad Request",
detail "missing field x", status 400 sets the body to the mapping with
keys error, status and detail (in that insertion order) and the status to
400; in general the detail key appears only when the detail is present
(truthy). -/
theorem media_formatter_encoding (req : Request) (res : Response) (exc : HTTPError) :
    (error_to_media req res ⟨400, "Bad Request", Option.some "missing field x"⟩).status_code
      = 400 ∧
    (error_to_media req res ⟨400, "Bad Request", Option.some "missing field x"⟩).body =
      Body.media [("error", MediaVal.str "Bad Request"), ("status", MediaVal.num 400),
        ("detail", MediaVal.str "missing field x")] ∧
    (error_to_media req res exc).body =
      Body.media
        (if truthy exc.detail
         then [("error", MediaVal.str exc.title), ("status", MediaVal.num exc.status_code),
           ("detail", MediaVal.str (exc.detail.getD ""))]
         else [("error", MediaVal.str exc.title), ("status", MediaVal.num exc.status_code)]) := by
  refine ⟨rfl, rfl, ?_⟩
  unfold error_to_media
  cases hb : truthy exc.detail <;> simp [hb]

/-- C9: the text formatter applied to title "Forbidden", no detail, status
403 sets the body to "Forbidden" and the status to 403; in general it
emits the title, followed by a newline and the detail only when the detail
is present (truthy). -/
theorem text_formatter_encoding (req : Request) (res : Response) (exc : HTTPError) :
    (error_to_text req res ⟨403, "Forbidden", Option.none⟩).status_code = 403 ∧
    (error_to_text req res ⟨403, "Forbidden", Option.none⟩).body = Body.text "Forbidden" ∧
    (error_to_text req res exc).body =
      Body.text
        (if truthy exc.detail
         then exc.title ++ "\n" ++ exc.detail.getD ""
         else exc.title) := by
  refine ⟨rfl, rfl, ?_⟩
  unfold error_to_text
  cases hb : truthy exc.detail <;> simp [hb]

/-- C10: a structured error whose detail is the empty string (present but
empty) produces, under each of the three built-in formatters, exactly the
same response as one with no detail at all — presence is tested by
truthiness, and the empty string is falsy. -/
theorem empty_detail_equals_no_detail (req : Request) (res : Response)
    (status : Nat) (title : String) :
    error_to_html req res ⟨status, title, Option.some ""⟩ =
      error_to_html req res ⟨status, title, Option.none⟩ ∧
    error_to_media req res ⟨status, title, Option.some ""⟩ =
      error_to_media req res ⟨status, title, Option.none⟩ ∧
    error_to_text req res ⟨status, title, Option.some ""⟩ =
      error_to_text req res ⟨status, title, Option.none⟩ :=
  ⟨rfl, rfl, rfl⟩

end Bocadillo
